import Mathlib

/-!
Shallow embedding of `src/src/main.rs` of the `structs` repository.

The program consists of two demonstration routines called from `main`:
`dai_structs` (the `User` struct, `build_user`, struct update syntax, the
`Color` tuple struct) and a method-syntax routine (the `Rectangle` struct
with `area`, `can_hold` and `square`).  `u32` and `u64` values are embedded
as `Nat` with explicit bounds; `u32` multiplication in `area` reduces
modulo `2 ^ 32`.  Each routine only prints fixed lines, which are embedded
as `List String` values built from the same struct instances the source
builds.
-/

namespace Structs

/-- The `User` struct (main.rs lines 13-18): `username : String`,
`email : String`, `sign_in_count : u64`, `active : bool`. -/
structure User where
  username : String
  email : String
  sign_in_count : Nat
  active : Bool
  deriving DecidableEq

/-- The `u64` field of a `User` fits in 64 bits. -/
def User.valid (u : User) : Prop := u.sign_in_count < 2 ^ 64

instance (u : User) : Decidable u.valid := Nat.decLt _ _

/-- `build_user` (main.rs 38-47): takes an email and username and returns a
`User` with `active = true` and `sign_in_count = 1`. -/
def build_user (email username : String) : User :=
  { email := email, username := username, active := true, sign_in_count := 1 }

/-- `user1` as first constructed (main.rs 23-29). -/
def user1_initial : User :=
  { email := "random@email.com", username := "random", active := true,
    sign_in_count := 1 }

/-- `user1` after the field mutation at main.rs line 33. -/
def user1 : User := { user1_initial with email := "random2@email.com" }

/-- `user2` (main.rs 49). -/
def user2 : User := build_user "random3@email.com" "random2"

/-- Rust struct update syntax as used for `user3` (main.rs 53-60): `email`
and `username` given explicitly, every remaining field copied from `src`. -/
def structUpdate (src : User) (email username : String) : User :=
  { src with email := email, username := username }

/-- `user3` (main.rs 53-60), derived from `user1` by struct update syntax. -/
def user3 : User := structUpdate user1 "random4@email.com" "random4"

/-- The `Color` tuple struct (main.rs 66): three positional `i32` fields. -/
structure Color where
  c0 : Int
  c1 : Int
  c2 : Int
  deriving DecidableEq

/-- `black = Color(0, 0, 0)` (main.rs 67). -/
def black : Color := ⟨0, 0, 0⟩

/-- The `Rectangle` struct (main.rs 82-85): `width : u32`, `height : u32`. -/
structure Rectangle where
  width : Nat
  height : Nat
  deriving DecidableEq

/-- Both `u32` fields of a `Rectangle` fit in 32 bits. -/
def Rectangle.valid (r : Rectangle) : Prop :=
  r.width < 2 ^ 32 ∧ r.height < 2 ^ 32

instance (r : Rectangle) : Decidable r.valid := by
  unfold Rectangle.valid
  infer_instance

/-- `Rectangle::area` (main.rs 89-91): `self.width * self.height`, a `u32`
multiplication, hence reduced modulo `2 ^ 32`. -/
def Rectangle.area (self : Rectangle) : Nat :=
  (self.width * self.height) % 2 ^ 32

/-- `Rectangle::can_hold` (main.rs 93-96):
`self.width > other.width && self.height > other.height`. -/
def Rectangle.can_hold (self other : Rectangle) : Bool :=
  decide (self.width > other.width) && decide (self.height > other.height)

/-- `Rectangle::square` (main.rs 124-134): a rectangle with equal width and
height. -/
def Rectangle.square (size : Nat) : Rectangle :=
  { width := size, height := size }

/-- `rect1` (main.rs 99-102). -/
def rect1 : Rectangle := { width := 30, height := 50 }

/-- `rect2` (main.rs 104-107). -/
def rect2 : Rectangle := { width := 50, height := 100 }

/-- `rect5 = Rectangle::square(2)` (main.rs 135). -/
def rect5 : Rectangle := Rectangle.square 2

/-- The four lines `dai_structs` prints (main.rs 50, 61, 62, 68). -/
def daiStructsOutput : List String :=
  [ "Username of User 2 is: " ++ user2.username,
    "Is user 3 active? " ++ toString user3.active,
    "What\x27s user 3 sign in count? " ++ toString user3.sign_in_count,
    "Black is " ++ toString black.c0 ++ toString black.c1 ++ toString black.c2
      ++ " in RGB." ]

/-- The three lines the method-syntax routine prints (main.rs 109, 111-114,
136-139).  The call at line 109 is `rect2.can_hold(&rect1)`. -/
def methodDemoOutput : List String :=
  [ "Can rect1 hold rect2? " ++ toString (rect2.can_hold rect1),
    "The area of the rectangle is " ++ toString rect1.area
      ++ " square pixels.",
    "Square width and height are " ++ toString rect5.width ++ "x"
      ++ toString rect5.height ++ "." ]

/-- Everything `main` prints (main.rs 148-151): first the `dai_structs`
lines, then the method-syntax lines. -/
def mainOutput : List String := daiStructsOutput ++ methodDemoOutput

/-- The seven output lines listed in section 6 of the spec, transcribed from
the spec's words for comparison with `mainOutput`. -/
def specOutput : List String :=
  [ "Username of User 2 is: random2",
    "Is user 3 active? true",
    "What\x27s user 3 sign in count? 1",
    "Black is 000 in RGB.",
    "Can rect1 hold rect2? false",
    "The area of the rectangle is 1500 square pixels.",
    "Square width and height are 2x2." ]

/-- `can_hold` returns true exactly when both receiver dimensions strictly
exceed the argument's. -/
lemma can_hold_iff (r o : Rectangle) :
    r.can_hold o = true ↔ o.width < r.width ∧ o.height < r.height := by
  simp [Rectangle.can_hold]

/-- `can_hold` returns false exactly when some receiver dimension fails to
strictly exceed the argument's. -/
lemma can_hold_eq_false (r o : Rectangle) :
    r.can_hold o = false ↔ ¬(o.width < r.width ∧ o.height < r.height) := by
  rw [← Bool.not_eq_true, can_hold_iff]

/-- C1: the program prints seven lines and the first four and last two agree
with the spec's section 6, but the fifth line printed is
`Can rect1 hold rect2? true`, not `false`: line 109 evaluates
`rect2.can_hold(&rect1)` (which is true, since 50 > 30 and 100 > 50)
although its format string asks whether `rect1` holds `rect2`. -/
theorem claim_C1_output_divergence :
    mainOutput.length = 7 ∧
    mainOutput.take 4 = specOutput.take 4 ∧
    mainOutput.drop 5 = specOutput.drop 5 ∧
    mainOutput[4]? = some "Can rect1 hold rect2? true" ∧
    specOutput[4]? = some "Can rect1 hold rect2? false" ∧
    mainOutput ≠ specOutput := by
  refine ⟨rfl, rfl, rfl, rfl, rfl, ?_⟩
  decide

/-- C2: `r.can_hold o` is true if and only if `r.width` strictly exceeds
`o.width` and `r.height` strictly exceeds `o.height`; equality on either
dimension yields false. -/
theorem claim_C2_can_hold_strict (r o : Rectangle) :
    (r.can_hold o = true ↔ o.width < r.width ∧ o.height < r.height) ∧
    (o.width = r.width ∨ o.height = r.height → r.can_hold o = false) := by
  refine ⟨can_hold_iff r o, fun h => ?_⟩
  rw [can_hold_eq_false]
  omega

/-- C2 witness: equal widths (30 = 30) make `can_hold` return false even
though the height strictly exceeds. -/
theorem claim_C2_witness :
    (Rectangle.mk 30 50).can_hold (Rectangle.mk 30 7) = false :=
  (claim_C2_can_hold_strict (Rectangle.mk 30 50) (Rectangle.mk 30 7)).2
    (Or.inl rfl)

/-- C3 counterexample: the claim says the 50×100 rectangle does not hold the
30×50 rectangle, but `rect2.can_hold rect1` evaluates to true
(50 > 30 and 100 > 50). -/
theorem claim_C3_counterexample : rect2.can_hold rect1 = true := by decide

/-- C3 amended: the 30×50 rectangle does not hold the 50×100 rectangle, but
the 50×100 rectangle does hold the 30×50 rectangle. -/
theorem claim_C3_amended :
    rect1.can_hold rect2 = false ∧ rect2.can_hold rect1 = true := by decide

/-- C4 counterexample: `area` is a `u32` multiplication, so a 65536×65536
rectangle has area 0, not the mathematical product 65536 * 65536 = 2^32. -/
theorem claim_C4_counterexample :
    Rectangle.area (Rectangle.mk 65536 65536) ≠ 65536 * 65536 := by decide

/-- C4 amended: whenever the product `width * height` fits in 32 bits,
`area` returns exactly that product (otherwise it wraps modulo `2 ^ 32`);
in particular the 30×50 rectangle has area 1500. -/
theorem claim_C4_amended (r : Rectangle) (h : r.width * r.height < 2 ^ 32) :
    r.area = r.width * r.height ∧ rect1.area = 1500 :=
  ⟨Nat.mod_eq_of_lt h, rfl⟩

/-- C4 witness: the hypothesis holds at `rect1` (1500 < 2^32) and the area
is the exact product there. -/
theorem claim_C4_witness :
    rect1.width * rect1.height < 2 ^ 32 ∧
    rect1.area = rect1.width * rect1.height :=
  ⟨by decide, (claim_C4_amended rect1 (by decide)).1⟩

/-- C5: every modeled operation is total over its stated inputs: `area`
always yields an in-range `u32`, `can_hold` always yields a boolean,
`square` of an in-range size yields a valid rectangle, `build_user` always
yields a valid user, and struct-update construction preserves validity. -/
theorem claim_C5_totality (r o : Rectangle) (n : Nat)
    (email username : String) (src : User) :
    r.area < 2 ^ 32 ∧
    (r.can_hold o = true ∨ r.can_hold o = false) ∧
    (n < 2 ^ 32 → (Rectangle.square n).valid) ∧
    (build_user email username).valid ∧
    (src.valid → (structUpdate src email username).valid) := by
  refine ⟨Nat.mod_lt _ (by norm_num), ?_, fun h => ⟨h, h⟩,
    show (1 : Nat) < 2 ^ 64 by norm_num, fun h => h⟩
  cases r.can_hold o
  · exact Or.inr rfl
  · exact Or.inl rfl

/-- C5 witness: the in-range hypotheses hold at the program's own values
(`rect1`, `rect2`, size 2, `user1`) and every operation yields a valid
result there. -/
theorem claim_C5_witness :
    rect1.area < 2 ^ 32 ∧
    (2 < 2 ^ 32 ∧ (Rectangle.square 2).valid) ∧
    (build_user "a" "b").valid ∧
    (user1.valid ∧ (structUpdate user1 "a" "b").valid) := by
  have h := claim_C5_totality rect1 rect2 2 "a" "b" user1
  exact ⟨h.1, ⟨by decide, h.2.2.1 (by decide)⟩, h.2.2.2.1,
    ⟨by decide, h.2.2.2.2 (by decide)⟩⟩

/-- C6: `Rectangle::square n` has width and height both equal to `n`; in
particular `rect5 = square 2` has width = height = 2. -/
theorem claim_C6_square (n : Nat) :
    (Rectangle.square n).width = n ∧ (Rectangle.square n).height = n ∧
    rect5.width = 2 ∧ rect5.height = 2 :=
  ⟨rfl, rfl, rfl, rfl⟩

/-- C7: `build_user email username` has exactly the given email and
username, with `active = true` and `sign_in_count = 1`. -/
theorem claim_C7_build_user (email username : String) :
    (build_user email username).email = email ∧
    (build_user email username).username = username ∧
    (build_user email username).active = true ∧
    (build_user email username).sign_in_count = 1 :=
  ⟨rfl, rfl, rfl, rfl⟩

/-- C8: struct update syntax copies every unspecified field from the source
instance; in particular `user3`, derived from `user1` (which has
`sign_in_count = 1` and `active = true`), has `sign_in_count = 1` and
`active = true`. -/
theorem claim_C8_struct_update (src : User) (email username : String) :
    (structUpdate src email username).sign_in_count = src.sign_in_count ∧
    (structUpdate src email username).active = src.active ∧
    user3.sign_in_count = 1 ∧ user3.active = true :=
  ⟨rfl, rfl, rfl, rfl⟩

/-- C9: `can_hold` is irreflexive (no rectangle holds itself) and
asymmetric (if `r` holds `o` then `o` does not hold `r`). -/
theorem claim_C9_irrefl_asymm :
    (∀ r : Rectangle, r.can_hold r = false) ∧
    (∀ r o : Rectangle, r.can_hold o = true → o.can_hold r = false) := by
  constructor
  · intro r
    rw [can_hold_eq_false]
    omega
  · intro r o h
    rw [can_hold_iff] at h
    rw [can_hold_eq_false]
    omega

/-- C9 witness: `rect2` holds `rect1`, hence by asymmetry `rect1` does not
hold `rect2`; by irreflexivity `rect2` does not hold itself. -/
theorem claim_C9_witness :
    rect1.can_hold rect2 = false ∧ rect2.can_hold rect2 = false :=
  ⟨claim_C9_irrefl_asymm.2 rect2 rect1 (by decide),
   claim_C9_irrefl_asymm.1 rect2⟩

/-- C10: for every `u32` size `n`, the area of `square n` is `n * n` reduced
modulo `2 ^ 32`, hence exactly `n * n` whenever that square fits in 32
bits. -/
theorem claim_C10_square_area (n : Nat) (_h : n < 2 ^ 32) :
    (Rectangle.square n).area = n * n % 2 ^ 32 ∧
    (n * n < 2 ^ 32 → (Rectangle.square n).area = n * n) :=
  ⟨rfl, fun h2 => Nat.mod_eq_of_lt h2⟩

/-- C10 witness: at size 3, the area of the square is 9 = 3 * 3 mod 2^32. -/
theorem claim_C10_witness :
    3 < 2 ^ 32 ∧ (Rectangle.square 3).area = 3 * 3 % 2 ^ 32 ∧
    (Rectangle.square 3).area = 9 := by
  have h := claim_C10_square_area 3 (by norm_num)
  exact ⟨by norm_num, h.1, h.2 (by norm_num)⟩

end Structs
